import Mathlib

/-!
Shallow embedding of `src/server.py` (SAPKGE_MovieBot): a Flask app that
translates a natural-language question into a SPARQL query via a language
model, executes it against SAP HANA through the stored procedure
`SYS.SPARQL_EXECUTE`, and normalizes the CSV response with pandas.

External collaborators (hdbcli, the chat completion API, json, pandas) are
modelled explicitly: their per-call outcomes are oracle values supplied as
function arguments, and the library behavior actually exercised by the
source (json.loads, pd.read_csv + fillna) is embedded as executable Lean
functions over strings.
-/

set_option autoImplicit false

namespace MovieBot

/-- Python exception values that can reach the code under study:
`hdbcli.dbapi.Error` (raised by connect/cursor/callproc), JSON decode
errors from `json.loads`, `KeyError` from dict subscription, `TypeError`
from subscripting a non-dict, and the pandas `read_csv` errors
(`EmptyDataError`, `ParserError`). -/
inductive Exn where
  | dbapiError (msg : String)
  | jsonError (msg : String)
  | keyError (key : String)
  | typeError (msg : String)
  | emptyDataError
  | parserError (msg : String)
deriving DecidableEq

/-- Python `str(e)` for each modelled exception (used by the f-strings
`f"Error executing SPARQL query: {str(e)}"` and `f"Error: {str(e)}"`).
`str` of a `KeyError` places the key in quotes. -/
def Exn.str : Exn → String
  | Exn.dbapiError m => m
  | Exn.jsonError m => m
  | Exn.keyError k => "\x27" ++ k ++ "\x27"
  | Exn.typeError m => m
  | Exn.emptyDataError => "No columns to parse from file"
  | Exn.parserError m => m

/-! ## Graph Store Client (`call_sparql_execute`, server.py lines 35-57) -/

/-- Oracle for one execution of `call_sparql_execute`: the outcome of each
hdbcli call it makes. `some msg` means that call raises `dbapi.Error` whose
`str` is `msg`; `none` means it succeeds. On a successful `callproc`,
`callprocResponse` is `result[2]`, the raw CSV payload. Per the hdbcli
PEP 249 contract, connection and procedure-invocation failures are raised
as `dbapi.Error`; `close` calls are modelled as non-failing. -/
structure DbOutcome where
  connectErr : Option String
  cursorErr : Option String
  callprocErr : Option String
  callprocResponse : String
deriving DecidableEq

/-- Whether the remote call fails at some stage. -/
def DbOutcome.fails (o : DbOutcome) : Bool :=
  o.connectErr.isSome || o.cursorErr.isSome || o.callprocErr.isSome

/-- Resource bookkeeping for one `call_sparql_execute` run: whether the
hdbcli connection / cursor are still open when the function returns. -/
structure DbState where
  connOpen : Bool
  cursorOpen : Bool
deriving DecidableEq

/-- Embedding of `call_sparql_execute` (server.py lines 35-57).

```python
def call_sparql_execute(query: str):
    cursor = None
    try:
        conn = dbapi.connect(...)
        cursor = conn.cursor()
        result = cursor.callproc('SYS.SPARQL_EXECUTE', (query, headers, '?', None))
        response = result[2]
        cursor.close()
        conn.close()
        return response
    except dbapi.Error as e:
        if cursor:
            cursor.close()
        error_message = f"Error executing SPARQL query: {str(e)}"
        return error_message
```

The first component is the Python return value, as an `Except` so that a
propagated exception would be visible (`Except.error`); the second is the
final open/closed state of the connection and cursor. Note that on the
`except` path only the cursor is closed: when `callproc` (or `cursor()`)
raises, the function returns with the connection still open. -/
def call_sparql_execute (o : DbOutcome) : Except Exn String × DbState :=
  match o.connectErr with
  | some e => (Except.ok ("Error executing SPARQL query: " ++ e), ⟨false, false⟩)
  | none =>
    match o.cursorErr with
    | some e => (Except.ok ("Error executing SPARQL query: " ++ e), ⟨true, false⟩)
    | none =>
      match o.callprocErr with
      | some e => (Except.ok ("Error executing SPARQL query: " ++ e), ⟨true, false⟩)
      | none => (Except.ok o.callprocResponse, ⟨false, false⟩)

/-! ## Result Normalizer (`convert_to_dataframe`, server.py lines 60-61)

`convert_to_dataframe(result)` is `pd.read_csv(io.StringIO(result)).fillna('')`.
The pandas behavior exercised by the source is modelled for unquoted
comma-delimited payloads: lines are split on newlines, blank lines are
skipped (`skip_blank_lines=True` default), the first remaining line is the
header, fields are split on commas, missing trailing fields and na-like
fields become the null marker `NaN` (here `Option.none`), which `fillna('')`
replaces with the empty string. Cell values are kept as text (pandas
numeric inference does not affect shape or nullness, the properties
studied here). An entirely empty input raises `EmptyDataError`; a data
line with more fields than the header raises `ParserError`. -/

/-- A pandas DataFrame after `fillna('')`, reduced to what the source
observes: `df.columns.tolist()` and `df.values.tolist()`. -/
structure TabularResult where
  columns : List String
  rows : List (List String)

/-- Character-level splitting on a separator (the splitting primitive the
CSV model and the line model are built from), with the same semantics as
Python `str.split(sep)`: `n` separators yield `n + 1` pieces. -/
def splitOnCharAux (sep : Char) : List Char → List Char → List (List Char)
  | [], acc => [acc.reverse]
  | c :: cs, acc =>
    if c = sep then acc.reverse :: splitOnCharAux sep cs []
    else splitOnCharAux sep cs (c :: acc)

/-- Split a string on a separator character. -/
def splitOnChar (sep : Char) (s : String) : List String :=
  (splitOnCharAux sep s.data []).map String.mk

/-- Comma field splitting of one line. -/
def parseFields (line : String) : List String := splitOnChar ',' line

/-- Pandas default na-value detection on a text field (the subset of the
`na_values` set relevant here; the empty field is the one produced by
absent cells). -/
def naLike (s : String) : Bool :=
  s = "" || s = "NaN" || s = "nan" || s = "NA" || s = "N/A" || s = "null" || s = "NULL"

/-- The non-blank lines of the payload (pandas skips blank lines). -/
def csvLines (payload : String) : List String :=
  (splitOnChar '\n' payload).filter (fun l => l != "")

/-- One parsed data row before `fillna`: na-like fields become the null
marker `none`, and missing trailing fields are padded with `none` up to the
header width `n`. -/
def rawRow (n : Nat) (l : String) : List (Option String) :=
  let fs := (parseFields l).map (fun f => if naLike f then none else some f)
  fs ++ List.replicate (n - fs.length) none

/-- Model of `pd.read_csv(io.StringIO(payload))` on the payload class the
source feeds it. -/
def read_csv (payload : String) :
    Except Exn (List String × List (List (Option String))) :=
  match csvLines payload with
  | [] => Except.error Exn.emptyDataError
  | header :: body =>
    let cols := parseFields header
    if body.any (fun l => cols.length < (parseFields l).length) then
      Except.error (Exn.parserError "Error tokenizing data")
    else
      Except.ok (cols, body.map (rawRow cols.length))

/-- `fillna('')` on one row: every null marker becomes the empty string. -/
def fillNa (r : List (Option String)) : List String :=
  r.map (fun c => c.getD "")

/-- Embedding of `convert_to_dataframe` (server.py lines 60-61):
`pd.read_csv(io.StringIO(result)).fillna('')`. -/
def convert_to_dataframe (payload : String) : Except Exn TabularResult :=
  match read_csv payload with
  | Except.error e => Except.error e
  | Except.ok (cols, body) => Except.ok ⟨cols, body.map fillNa⟩

/-! ## JSON model (`json.loads`, used by `generate_sparql_query`)

The values `json.loads` can produce, and a recursive-descent parser for
the JSON fragment the source exchanges with the model (objects, arrays,
strings with simple escapes, integers, `true`/`false`/`null`). The parser
is fuelled so that it is structurally recursive and kernel-evaluable; the
fuel supplied by `json_loads` is ample for its input. -/

inductive JsonVal where
  | str (s : String)
  | num (n : Int)
  | bool (b : Bool)
  | null
  | arr (xs : List JsonVal)
  | obj (fields : List (String × JsonVal))

/-- Skip JSON whitespace. -/
def skipWs : List Char → List Char
  | c :: cs =>
    if c = ' ' || c = '\t' || c = '\n' || c = '\r' then skipWs cs else c :: cs
  | [] => []

/-- Parse the remainder of a JSON string literal (after the opening quote),
decoding the simple escapes; returns the string and the unconsumed input. -/
def parseStringLit : List Char → List Char → Except String (String × List Char)
  | [], _ => Except.error "Unterminated string"
  | c :: rest, acc =>
    if c = '"' then Except.ok (String.mk acc.reverse, rest)
    else if c = '\\' then
      match rest with
      | [] => Except.error "Unterminated string"
      | e :: rest2 =>
        let d := if e = 'n' then '\n' else if e = 't' then '\t'
                 else if e = 'r' then '\r' else e
        parseStringLit rest2 (d :: acc)
    else parseStringLit rest (c :: acc)

/-- Take a maximal run of decimal digits. -/
def takeDigits : List Char → List Char × List Char
  | [] => ([], [])
  | c :: cs =>
    if c.isDigit then
      let p := takeDigits cs
      (c :: p.1, p.2)
    else ([], c :: cs)

/-- Decimal digits to a natural number. -/
def digitsToNat (ds : List Char) : Nat :=
  ds.foldl (fun a c => a * 10 + (c.toNat - 48)) 0

/-- Parse a JSON integer (the numeric fragment used here). -/
def parseNumber (cs : List Char) : Except String (JsonVal × List Char) :=
  match cs with
  | '-' :: rest =>
    match takeDigits rest with
    | ([], _) => Except.error "Expecting value"
    | (ds, r) => Except.ok (JsonVal.num (-(digitsToNat ds : Int)), r)
  | _ =>
    match takeDigits cs with
    | ([], _) => Except.error "Expecting value"
    | (ds, r) => Except.ok (JsonVal.num (digitsToNat ds), r)

/-- Parser mode: a top-level value, the items of an array after `[`, or
the members of an object after `\x7b`. -/
inductive PMode where
  | val
  | arrItems (acc : List JsonVal)
  | objItems (acc : List (String × JsonVal))

/-- Fuelled recursive-descent JSON parser. -/
def parseJ (fuel : Nat) (mode : PMode) (cs : List Char) :
    Except String (JsonVal × List Char) :=
  match fuel with
  | 0 => Except.error "Expecting value"
  | f + 1 =>
    match mode with
    | PMode.val =>
      match skipWs cs with
      | [] => Except.error "Expecting value"
      | c :: rest =>
        if c = '"' then
          match parseStringLit rest [] with
          | Except.error m => Except.error m
          | Except.ok (s, r) => Except.ok (JsonVal.str s, r)
        else if c = '\x7b' then
          match skipWs rest with
          | '\x7d' :: r2 => Except.ok (JsonVal.obj [], r2)
          | r2 => parseJ f (PMode.objItems []) r2
        else if c = '[' then
          match skipWs rest with
          | ']' :: r2 => Except.ok (JsonVal.arr [], r2)
          | r2 => parseJ f (PMode.arrItems []) r2
        else if c = 't' then
          match rest with
          | 'r' :: 'u' :: 'e' :: r2 => Except.ok (JsonVal.bool true, r2)
          | _ => Except.error "Expecting value"
        else if c = 'f' then
          match rest with
          | 'a' :: 'l' :: 's' :: 'e' :: r2 => Except.ok (JsonVal.bool false, r2)
          | _ => Except.error "Expecting value"
        else if c = 'n' then
          match rest with
          | 'u' :: 'l' :: 'l' :: r2 => Except.ok (JsonVal.null, r2)
          | _ => Except.error "Expecting value"
        else if c.isDigit || c = '-' then parseNumber (c :: rest)
        else Except.error "Expecting value"
    | PMode.arrItems acc =>
      match parseJ f PMode.val cs with
      | Except.error m => Except.error m
      | Except.ok (v, r) =>
        match skipWs r with
        | ',' :: r2 => parseJ f (PMode.arrItems (v :: acc)) r2
        | ']' :: r2 => Except.ok (JsonVal.arr (v :: acc).reverse, r2)
        | _ => Except.error "Expecting delimiter"
    | PMode.objItems acc =>
      match skipWs cs with
      | '"' :: rest =>
        match parseStringLit rest [] with
        | Except.error m => Except.error m
        | Except.ok (k, r) =>
          match skipWs r with
          | ':' :: r2 =>
            match parseJ f PMode.val r2 with
            | Except.error m => Except.error m
            | Except.ok (v, r3) =>
              match skipWs r3 with
              | ',' :: r4 => parseJ f (PMode.objItems ((k, v) :: acc)) r4
              | '\x7d' :: r4 => Except.ok (JsonVal.obj ((k, v) :: acc).reverse, r4)
              | _ => Except.error "Expecting delimiter"
          | _ => Except.error "Expecting colon delimiter"
      | _ => Except.error "Expecting property name"

/-- Model of Python `json.loads` on the JSON fragment used by the source:
parse one value and require only whitespace to remain. A failure is a
`json.JSONDecodeError`, modelled as `Exn.jsonError`. -/
def json_loads (s : String) : Except Exn JsonVal :=
  match parseJ (2 * s.data.length + 4) PMode.val s.data with
  | Except.error m => Except.error (Exn.jsonError m)
  | Except.ok (v, rest) =>
    match skipWs rest with
    | [] => Except.ok v
    | _ => Except.error (Exn.jsonError "Extra data")

/-- Python `d[k]` on a `json.loads` result: returns the value at a string
key of an object (last duplicate wins, as in Python dicts), raises
`KeyError` when the key is absent, and `TypeError` when the value is not
an object. -/
def jsonIndex (v : JsonVal) (k : String) : Except Exn JsonVal :=
  match v with
  | JsonVal.obj fields =>
    match (fields.filter (fun p => p.1 == k)).getLast? with
    | some p => Except.ok p.2
    | none => Except.error (Exn.keyError k)
  | _ => Except.error (Exn.typeError "value is not subscriptable by string key")

/-! ## Query Synthesizer (`generate_sparql_query`, server.py lines 64-106) -/

/-- The fixed refusal sentence the system prompt instructs the model to
return for a question in an unsupported language (server.py line 70). -/
def refusalSentence : String :=
  "Please enter your question in a prominent language such as English, Spanish, German, or French."

/-- Embedding of `generate_sparql_query` (server.py lines 64-106). The
prompt is built from the question and the ontology and sent to the chat
completion API; the completion is an external effect, so its outcome is
an oracle value: either a raised exception or the returned message content
string. The function then applies `json.loads` to the content
(`json.loads(response.choices[0].message.content)`); a parse failure
propagates to the caller. -/
def generate_sparql_query (chatOutcome : Except Exn String) : Except Exn JsonVal :=
  match chatOutcome with
  | Except.error e => Except.error e
  | Except.ok content => json_loads content

/-! ## Request Orchestrator (`index`, server.py lines 116-153) -/

/-- HTTP method of the incoming request. -/
inductive Method where
  | GET
  | POST
deriving DecidableEq

/-- Oracle for one request: the method, the posted form value
`request.form.get('user_query')` (absent field gives `none`), the outcome
of the chat completion call made during this request, and the behavior of
the store during this request's `call_sparql_execute` call. -/
structure RequestOracle where
  method : Method
  formValue : Option String
  chat : Except Exn String
  db : DbOutcome

/-- The local variables of `index` that the `try` block assigns before the
final `render_template` call (Python keeps the values assigned before an
exception; unassigned ones remain `None`). -/
structure TryState where
  sparql_query : Option JsonVal
  results : Option (List (List String))
  columns : Option (List String)
  message : Option String

/-- Which pipeline stages were invoked while handling the request:
the synthesizer (`generate_sparql_query`), the store
(`call_sparql_execute`), and the normalizer (`convert_to_dataframe`). -/
structure CallTrace where
  synthCalled : Bool
  storeCalled : Bool
  normalizeCalled : Bool
deriving DecidableEq

/-- Python `str(None)`/f-string rendering of the optional form value. -/
def pyStr : Option String → String
  | some s => s
  | none => "None"

/-- Embedding of the `try` block of `index` (server.py lines 126-144) on a
POST request, together with the call trace. An `Except.error` outcome is
the exception reaching the `except Exception` handler, paired with the
variable state accumulated before it was raised:

```python
sparql_data = generate_sparql_query(user_query, ontology_result)
sparql_query = sparql_data['sparql_query']
sparql_result = call_sparql_execute(sparql_query)
results_df = convert_to_dataframe(sparql_result)
results = results_df.values.tolist()
columns = results_df.columns.tolist()
if not results:
    message = f"No records found for query: {user_query}"
```
-/
def tryBody (o : RequestOracle) : Except (Exn × TryState) TryState × CallTrace :=
  match generate_sparql_query o.chat with
  | Except.error e => (Except.error (e, ⟨none, none, none, none⟩), ⟨true, false, false⟩)
  | Except.ok sparql_data =>
    match jsonIndex sparql_data "sparql_query" with
    | Except.error e => (Except.error (e, ⟨none, none, none, none⟩), ⟨true, false, false⟩)
    | Except.ok sq =>
      match (call_sparql_execute o.db).1 with
      | Except.error e => (Except.error (e, ⟨some sq, none, none, none⟩), ⟨true, true, false⟩)
      | Except.ok sparql_result =>
        match convert_to_dataframe sparql_result with
        | Except.error e => (Except.error (e, ⟨some sq, none, none, none⟩), ⟨true, true, true⟩)
        | Except.ok df =>
          if df.rows.isEmpty then
            (Except.ok ⟨some sq, some df.rows, some df.columns,
              some ("No records found for query: " ++ pyStr o.formValue)⟩,
             ⟨true, true, true⟩)
          else
            (Except.ok ⟨some sq, some df.rows, some df.columns, none⟩, ⟨true, true, true⟩)

/-- The five keyword arguments of the final `render_template` call
(server.py lines 146-153), in source order. -/
structure Response where
  results : Option (List (List String))
  columns : Option (List String)
  user_query : Option String
  sparql_query : Option JsonVal
  message : Option String

/-- Assemble the rendered response of a POST request from the `try`
outcome: on an exception the handler sets
`message = f"Error: {str(e)}"` (server.py lines 143-144) and the other
variables keep their pre-exception values. -/
def renderPost (fv : Option String) : Except (Exn × TryState) TryState → Response
  | Except.error es =>
    ⟨es.2.results, es.2.columns, fv, es.2.sparql_query, some ("Error: " ++ Exn.str es.1)⟩
  | Except.ok st => ⟨st.results, st.columns, fv, st.sparql_query, st.message⟩

/-- Embedding of the route handler `index` (server.py lines 116-153),
returning the rendered response and the call trace. On GET the five
variables keep their initial `None` values and no pipeline stage runs. -/
def index (o : RequestOracle) : Response × CallTrace :=
  match o.method with
  | Method.GET => (⟨none, none, none, none, none⟩, ⟨false, false, false⟩)
  | Method.POST =>
    (renderPost o.formValue (tryBody o).1, (tryBody o).2)

/-! ## Helper lemmas -/

/-- When no hdbcli call fails, `call_sparql_execute` returns the raw
payload `result[2]` and both handles are closed. -/
theorem call_sparql_execute_ok (o : DbOutcome) (h : o.fails = false) :
    (call_sparql_execute o).1 = Except.ok o.callprocResponse := by
  rcases o with ⟨ce, cu, cp, r⟩
  cases ce <;> cases cu <;> cases cp <;>
    first
    | rfl
    | simp [DbOutcome.fails] at h

/-! ## Claims -/

/-- Claim C1: for every query, if the Graph Store Client's remote call
fails at any stage (connect, cursor creation, or procedure invocation —
all raised as `dbapi.Error` per the hdbcli contract), `call_sparql_execute`
returns normally (`Except.ok`, never a propagated exception) with the
ErrorValue string `"Error executing SPARQL query: " ++ msg`, which
contains the word "Error". -/
theorem execute_store_failure_returns_error_string (o : DbOutcome)
    (h : o.fails = true) :
    ∃ m, (call_sparql_execute o).1 =
      Except.ok ("Error executing SPARQL query: " ++ m) := by
  rcases o with ⟨ce, cu, cp, r⟩
  cases ce with
  | some e => exact ⟨e, rfl⟩
  | none =>
    cases cu with
    | some e => exact ⟨e, rfl⟩
    | none =>
      cases cp with
      | some e => exact ⟨e, rfl⟩
      | none => simp [DbOutcome.fails] at h

/-- Witness for C1: a concrete failing connect. -/
theorem execute_store_failure_returns_error_string_witness :
    (DbOutcome.mk (some "boom") none none "").fails = true ∧
    ∃ m, (call_sparql_execute ⟨some "boom", none, none, ""⟩).1 =
      Except.ok ("Error executing SPARQL query: " ++ m) :=
  ⟨by decide,
   execute_store_failure_returns_error_string ⟨some "boom", none, none, ""⟩ (by decide)⟩

/-- Claim C6 (refuted; the code leaks the connection): when
`cursor.callproc` raises `dbapi.Error`, the `except` handler closes only
the cursor, so `call_sparql_execute` returns with the connection still
open — the claim that both handles are released on every exit path fails
on this error path. -/
theorem execute_error_path_leaks_connection :
    (call_sparql_execute ⟨none, none, some "boom", ""⟩).2.connOpen = true ∧
    (call_sparql_execute ⟨none, none, some "boom", ""⟩).2.cursorOpen = false :=
  ⟨rfl, rfl⟩

/-- Claim C7 (counterexample): on the empty payload, `convert_to_dataframe`
does not return an empty column list and empty row list — it fails. -/
theorem normalize_empty_payload_counterexample :
    ¬ ∃ t : TabularResult, convert_to_dataframe "" = Except.ok t := by
  intro h
  obtain ⟨t, ht⟩ := h
  have h0 : convert_to_dataframe "" = Except.error Exn.emptyDataError := rfl
  rw [h0] at ht
  exact Except.noConfusion ht

/-- Claim C7 (amended): on a payload with no header at all,
`convert_to_dataframe` raises the pandas `EmptyDataError` ("No columns to
parse from file") instead of returning an empty tabular result. -/
theorem normalize_empty_payload_raises :
    convert_to_dataframe "" = Except.error Exn.emptyDataError := rfl

/-- Claim C10: on a GET request the handler runs no pipeline stage (no
synthesis, no store execution, no normalization) and renders with all
five fields `None`. -/
theorem get_request_blank_response (o : RequestOracle)
    (h : o.method = Method.GET) :
    index o = (⟨none, none, none, none, none⟩, ⟨false, false, false⟩) := by
  rcases o with ⟨m, fv, ch, db⟩
  subst h
  rfl

/-- Witness for C10. -/
theorem get_request_blank_response_witness :
    index ⟨Method.GET, some "q", Except.ok "x", ⟨none, none, none, ""⟩⟩ =
      (⟨none, none, none, none, none⟩, ⟨false, false, false⟩) :=
  get_request_blank_response ⟨Method.GET, some "q", Except.ok "x", ⟨none, none, none, ""⟩⟩ rfl

/-- A model response wrapping the refusal sentence as the query field of
the mandated JSON shape (the structured-output mode forces the completion
content to be a JSON object). -/
def wrappedRefusalOracle : RequestOracle :=
  ⟨Method.POST, some "some question",
   Except.ok ("\x7b\"sparql_query\": \"" ++ refusalSentence ++ "\"\x7d"),
   ⟨none, none, none, "count"⟩⟩

/-- Claim C4 (counterexample): the handler never special-cases the refusal
sentence. When the model returns the refusal wrapped in the mandated JSON
shape, the refusal sentence itself is sent to the store as the query —
store execution IS attempted — and the final message is not the refusal
sentence. -/
theorem refusal_not_special_cased_counterexample :
    (index wrappedRefusalOracle).2.storeCalled = true ∧
    (index wrappedRefusalOracle).1.message ≠ some refusalSentence := by
  constructor
  · rfl
  · intro h
    have h0 : (index wrappedRefusalOracle).1.message =
        some "No records found for query: some question" := rfl
    rw [h0] at h
    exact absurd h (by decide)

/-- Claim C4 (amended): the refusal path is not detected by the code. If
the model returns the refusal sentence as its raw content, `json.loads`
raises, the top-level handler turns that into an "Error: ..." message (not
the refusal sentence verbatim), and no store execution is attempted; if
the model instead wraps the refusal in the JSON shape, the store is
executed with the refusal as the query (see the counterexample). -/
theorem raw_refusal_yields_parse_error (o : RequestOracle)
    (hm : o.method = Method.POST)
    (hchat : o.chat = Except.ok refusalSentence) :
    (index o).2.storeCalled = false ∧
    (index o).1.message = some ("Error: " ++ "Expecting value") := by
  rcases o with ⟨m, fv, ch, db⟩
  subst hm
  subst hchat
  exact ⟨rfl, rfl⟩

/-- Witness for the amended C4. -/
theorem raw_refusal_yields_parse_error_witness :
    (index ⟨Method.POST, some "q", Except.ok refusalSentence, ⟨none, none, none, ""⟩⟩).2.storeCalled = false ∧
    (index ⟨Method.POST, some "q", Except.ok refusalSentence, ⟨none, none, none, ""⟩⟩).1.message =
      some ("Error: " ++ "Expecting value") :=
  raw_refusal_yields_parse_error
    ⟨Method.POST, some "q", Except.ok refusalSentence, ⟨none, none, none, ""⟩⟩ rfl rfl

/-- Claim C8: every exception raised inside the synthesize → execute →
normalize sequence of a POST request reaches the single top-level
`except Exception` handler and becomes the message
`"Error: " ++ str(e)`; the handler itself always returns a rendered
response (the embedding is a total function). -/
theorem orchestrator_catches_pipeline_exception (o : RequestOracle)
    (e : Exn) (st : TryState)
    (hm : o.method = Method.POST)
    (herr : (tryBody o).1 = Except.error (e, st)) :
    (index o).1.message = some ("Error: " ++ Exn.str e) := by
  rcases o with ⟨m, fv, ch, db⟩
  subst hm
  have h0 : (index ⟨Method.POST, fv, ch, db⟩).1 =
      renderPost fv (tryBody ⟨Method.POST, fv, ch, db⟩).1 := rfl
  rw [h0, herr]
  rfl

/-- Witness for C8: malformed (non-JSON) model output raises inside the
pipeline and becomes an "Error: ..." message. -/
theorem orchestrator_catches_pipeline_exception_witness :
    (tryBody ⟨Method.POST, some "q", Except.ok "not json", ⟨none, none, none, ""⟩⟩).1 =
      Except.error (Exn.jsonError "Expecting value", ⟨none, none, none, none⟩) ∧
    (index ⟨Method.POST, some "q", Except.ok "not json", ⟨none, none, none, ""⟩⟩).1.message =
      some ("Error: " ++ Exn.str (Exn.jsonError "Expecting value")) :=
  ⟨rfl,
   orchestrator_catches_pipeline_exception
     ⟨Method.POST, some "q", Except.ok "not json", ⟨none, none, none, ""⟩⟩
     (Exn.jsonError "Expecting value") ⟨none, none, none, none⟩ rfl rfl⟩

/-- Shape of the variable state at any exception inside the `try` block:
`results` and `columns` are only assigned after every fallible step, so an
exception always leaves them `None`. -/
theorem tryBody_error_no_data (o : RequestOracle) (e : Exn) (st : TryState)
    (h : (tryBody o).1 = Except.error (e, st)) :
    st.results = none ∧ st.columns = none := by
  unfold tryBody at h
  repeat' split at h
  all_goals
    first
    | exact Except.noConfusion h
    | (injection h with h1
       injection h1 with h2 h3
       rw [← h3]
       exact ⟨rfl, rfl⟩)

/-- Claim C9: if query synthesis raises before a query string is
extracted (a chat-call failure, malformed model output, or a missing
`sparql_query` field — the error states whose `sparql_query` variable is
still `None`), the rendered response carries the `None` sentinel for
`results`, `columns` and `sparql_query`, echoes the question, and its
message is exactly `"Error: " ++ str(e)`. -/
theorem synthesis_failure_atomic_response (o : RequestOracle)
    (e : Exn) (st : TryState)
    (hm : o.method = Method.POST)
    (herr : (tryBody o).1 = Except.error (e, st))
    (hnoq : st.sparql_query = none) :
    (index o).1 = ⟨none, none, o.formValue, none, some ("Error: " ++ Exn.str e)⟩ := by
  obtain ⟨hres, hcols⟩ := tryBody_error_no_data o e st herr
  rcases o with ⟨m, fv, ch, db⟩
  subst hm
  have h0 : (index ⟨Method.POST, fv, ch, db⟩).1 =
      renderPost fv (tryBody ⟨Method.POST, fv, ch, db⟩).1 := rfl
  rw [h0, herr]
  simp [renderPost, hres, hcols, hnoq]

/-- Witness for C9: model output missing the `sparql_query` field raises
`KeyError` before extraction; only the message and the question are set. -/
theorem synthesis_failure_atomic_response_witness :
    (tryBody ⟨Method.POST, some "q", Except.ok "\x7b\"query\": \"x\"\x7d",
        ⟨none, none, none, ""⟩⟩).1 =
      Except.error (Exn.keyError "sparql_query", ⟨none, none, none, none⟩) ∧
    (index ⟨Method.POST, some "q", Except.ok "\x7b\"query\": \"x\"\x7d",
        ⟨none, none, none, ""⟩⟩).1 =
      ⟨none, none, some "q", none, some ("Error: " ++ Exn.str (Exn.keyError "sparql_query"))⟩ :=
  ⟨rfl,
   synthesis_failure_atomic_response
     ⟨Method.POST, some "q", Except.ok "\x7b\"query\": \"x\"\x7d", ⟨none, none, none, ""⟩⟩
     (Exn.keyError "sparql_query") ⟨none, none, none, none⟩ rfl rfl rfl⟩

/-- Claim C5: when the store call succeeds and normalization yields zero
rows, the handler still renders the (empty) rows and the columns, and the
message is `"No records found for query: "` followed by the original
question — the no-records path, not an error path. -/
theorem empty_result_no_records_message (o : RequestOracle) (q : String)
    (d sq : JsonVal) (df : TabularResult)
    (hm : o.method = Method.POST)
    (hq : o.formValue = some q)
    (hsynth : generate_sparql_query o.chat = Except.ok d)
    (hkey : jsonIndex d "sparql_query" = Except.ok sq)
    (hdb : o.db.fails = false)
    (hconv : convert_to_dataframe o.db.callprocResponse = Except.ok df)
    (hrows : df.rows = []) :
    (index o).1.results = some [] ∧
    (index o).1.columns = some df.columns ∧
    (index o).1.message = some ("No records found for query: " ++ q) := by
  rcases o with ⟨m, fv, ch, db⟩
  subst hm
  subst hq
  have hexec := call_sparql_execute_ok db hdb
  have htb : (tryBody ⟨Method.POST, some q, ch, db⟩).1 =
      Except.ok ⟨some sq, some [], some df.columns,
        some ("No records found for query: " ++ q)⟩ := by
    unfold tryBody
    simp only [hsynth, hkey, hexec, hconv, hrows]
    simp [pyStr]
  have h0 : (index ⟨Method.POST, some q, ch, db⟩).1 =
      renderPost (some q) (tryBody ⟨Method.POST, some q, ch, db⟩).1 := rfl
  refine ⟨?_, ?_, ?_⟩ <;> rw [h0, htb] <;> rfl

/-- Witness for C5: a header-only payload "count". -/
theorem empty_result_no_records_message_witness :
    (index ⟨Method.POST, some "q",
        Except.ok "\x7b\"sparql_query\": \"SELECT 1\"\x7d",
        ⟨none, none, none, "count"⟩⟩).1.results = some [] ∧
    (index ⟨Method.POST, some "q",
        Except.ok "\x7b\"sparql_query\": \"SELECT 1\"\x7d",
        ⟨none, none, none, "count"⟩⟩).1.columns =
      some (⟨["count"], []⟩ : TabularResult).columns ∧
    (index ⟨Method.POST, some "q",
        Except.ok "\x7b\"sparql_query\": \"SELECT 1\"\x7d",
        ⟨none, none, none, "count"⟩⟩).1.message =
      some ("No records found for query: " ++ "q") :=
  empty_result_no_records_message
    ⟨Method.POST, some "q", Except.ok "\x7b\"sparql_query\": \"SELECT 1\"\x7d",
      ⟨none, none, none, "count"⟩⟩
    "q" (JsonVal.obj [("sparql_query", JsonVal.str "SELECT 1")]) (JsonVal.str "SELECT 1")
    ⟨["count"], []⟩ rfl rfl rfl rfl rfl rfl rfl

/-- A POST request whose synthesized query reaches the store while the
store's connect call fails, so `call_sparql_execute` returns the
ErrorValue string. -/
def storeFailureOracle : RequestOracle :=
  ⟨Method.POST, some "who directed Dune",
   Except.ok "\x7b\"sparql_query\": \"SELECT 1\"\x7d",
   ⟨some "boom", none, none, ""⟩⟩

/-- Claim C2 (counterexample): when the store returns the ErrorValue
string, the orchestrator does not fail with that error text — it passes
the error string on to normalization (normalize IS called) and, the error
text parsing as a header-only table, the user-facing message becomes the
"No records found" text instead of the store error. -/
theorem store_error_not_surfaced_counterexample :
    (call_sparql_execute storeFailureOracle.db).1 =
      Except.ok "Error executing SPARQL query: boom" ∧
    (index storeFailureOracle).2.normalizeCalled = true ∧
    (index storeFailureOracle).1.message =
      some "No records found for query: who directed Dune" :=
  ⟨rfl, rfl, rfl⟩

/-- Claim C2 (amended): the orchestrator never checks the store's return
value for the ErrorValue shape. When the store call fails (here: connect
fails with message `emsg`) the error string becomes the normalizer's
input; if that error text is a single non-blank line, it parses as a
header-only table with zero rows, and the user-facing message is the
misleading "No records found for query: ..." text, not the store error. -/
theorem store_error_flows_to_normalizer (o : RequestOracle)
    (d sq : JsonVal) (emsg : String)
    (hm : o.method = Method.POST)
    (hsynth : generate_sparql_query o.chat = Except.ok d)
    (hkey : jsonIndex d "sparql_query" = Except.ok sq)
    (hdb : o.db.connectErr = some emsg)
    (hline : csvLines ("Error executing SPARQL query: " ++ emsg) =
      ["Error executing SPARQL query: " ++ emsg]) :
    (index o).2.normalizeCalled = true ∧
    (index o).1.message =
      some ("No records found for query: " ++ pyStr o.formValue) := by
  rcases o with ⟨m, fv, ch, ⟨ce, cu, cp, rr⟩⟩
  subst hm
  simp only at hdb
  subst hdb
  have hconv : convert_to_dataframe ("Error executing SPARQL query: " ++ emsg) =
      Except.ok ⟨parseFields ("Error executing SPARQL query: " ++ emsg), []⟩ := by
    unfold convert_to_dataframe read_csv
    rw [hline]
    simp
  have hexec : (call_sparql_execute (DbOutcome.mk (some emsg) cu cp rr)).1 =
      Except.ok ("Error executing SPARQL query: " ++ emsg) := rfl
  have htb : tryBody ⟨Method.POST, fv, ch, ⟨some emsg, cu, cp, rr⟩⟩ =
      (Except.ok ⟨some sq, some [],
        some (parseFields ("Error executing SPARQL query: " ++ emsg)),
        some ("No records found for query: " ++ pyStr fv)⟩,
       ⟨true, true, true⟩) := by
    unfold tryBody
    simp only [hsynth, hkey, hexec, hconv]
    simp
  have h0 : index ⟨Method.POST, fv, ch, ⟨some emsg, cu, cp, rr⟩⟩ =
      (renderPost fv (tryBody ⟨Method.POST, fv, ch, ⟨some emsg, cu, cp, rr⟩⟩).1,
       (tryBody ⟨Method.POST, fv, ch, ⟨some emsg, cu, cp, rr⟩⟩).2) := rfl
  rw [h0, htb]
  exact ⟨rfl, rfl⟩

/-- Witness for the amended C2. -/
theorem store_error_flows_to_normalizer_witness :
    (index ⟨Method.POST, some "q",
        Except.ok "\x7b\"sparql_query\": \"SELECT 2\"\x7d",
        ⟨some "down", none, none, ""⟩⟩).2.normalizeCalled = true ∧
    (index ⟨Method.POST, some "q",
        Except.ok "\x7b\"sparql_query\": \"SELECT 2\"\x7d",
        ⟨some "down", none, none, ""⟩⟩).1.message =
      some ("No records found for query: " ++ pyStr (some "q")) :=
  store_error_flows_to_normalizer
    ⟨Method.POST, some "q", Except.ok "\x7b\"sparql_query\": \"SELECT 2\"\x7d",
      ⟨some "down", none, none, ""⟩⟩
    (JsonVal.obj [("sparql_query", JsonVal.str "SELECT 2")]) (JsonVal.str "SELECT 2")
    "down" rfl rfl rfl rfl (by decide)

/-- Claim C3: for a well-formed delimited payload — a header line followed
by `N` non-blank data lines, none wider than the header — normalization
returns exactly `N` rows, each padded to the header's column count, and
every cell is either a non-null field of its line or the empty string that
replaced an absent/null-like cell (never a null marker). The header-only
case is the `body = []` instance: zero rows with the header's columns. -/
theorem normalize_well_formed_shape (payload header : String) (body : List String)
    (hsplit : csvLines payload = header :: body)
    (hwidth : ∀ l ∈ body, (parseFields l).length ≤ (parseFields header).length) :
    ∃ t : TabularResult, convert_to_dataframe payload = Except.ok t ∧
      t.columns = parseFields header ∧
      t.rows.length = body.length ∧
      (∀ r ∈ t.rows, r.length = (parseFields header).length) ∧
      (∀ r ∈ t.rows, ∀ c ∈ r, c = "" ∨ naLike c = false) := by
  have hany : body.any
      (fun l => (parseFields header).length < (parseFields l).length) = false := by
    rw [List.any_eq_false]
    intro l hl
    simpa using Nat.not_lt.mpr (hwidth l hl)
  have hread : read_csv payload =
      Except.ok (parseFields header, body.map (rawRow (parseFields header).length)) := by
    unfold read_csv
    rw [hsplit]
    simp [hany]
  refine ⟨⟨parseFields header, (body.map (rawRow (parseFields header).length)).map fillNa⟩,
    ?_, rfl, ?_, ?_, ?_⟩
  · unfold convert_to_dataframe
    rw [hread]
  · simp
  · intro r hr
    simp only [List.mem_map] at hr
    obtain ⟨r0, hr0, rfl⟩ := hr
    obtain ⟨l, hl, rfl⟩ := hr0
    have hle := hwidth l hl
    simp [fillNa, rawRow, List.length_map]
    omega
  · intro r hr c hc
    simp only [List.mem_map] at hr
    obtain ⟨r0, hr0, rfl⟩ := hr
    simp only [fillNa, List.mem_map] at hc
    obtain ⟨oc, hoc, rfl⟩ := hc
    cases oc with
    | none => exact Or.inl rfl
    | some s =>
      right
      obtain ⟨l, hl, rfl⟩ := hr0
      simp only [rawRow, List.mem_append] at hoc
      rcases hoc with h1 | h2
      · obtain ⟨f, hf, hfe⟩ := List.mem_map.mp h1
        by_cases hn : naLike f
        · simp [hn] at hfe
        · simp [hn] at hfe
          subst hfe
          simpa using hn
      · have := List.eq_of_mem_replicate h2
        exact Option.noConfusion this

/-- Witness for C3: a two-column payload with an absent trailing cell. -/
theorem normalize_well_formed_shape_witness :
    csvLines "a,b\n1,\n2,3" = "a,b" :: ["1,", "2,3"] ∧
    ∃ t : TabularResult, convert_to_dataframe "a,b\n1,\n2,3" = Except.ok t ∧
      t.columns = parseFields "a,b" ∧
      t.rows.length = ["1,", "2,3"].length ∧
      (∀ r ∈ t.rows, r.length = (parseFields "a,b").length) ∧
      (∀ r ∈ t.rows, ∀ c ∈ r, c = "" ∨ naLike c = false) :=
  ⟨by decide,
   normalize_well_formed_shape "a,b\n1,\n2,3" "a,b" ["1,", "2,3"] (by decide) (by decide)⟩

end MovieBot
